import Mathlib

/-!
Shallow embedding of the AnyRouter account-lifecycle scripts:
the password-rotation orchestrator (src/changePassword/single-change-password.js),
the ledger API wrappers (src/api/account.js), the sign-in module
(src/checkin/checkin-username.js) and the random-delay utility
(src/utils/random-delay.js).  External effects (the headless-browser
"changer", the remote ledger backend) are modelled as explicit inputs, so
every run of an orchestrator is a pure function of its request data and an
environment recording the outcomes the external world would produce.
-/

namespace AnyRouter

/-! ## JavaScript string helpers -/

/-- Decides whether the first character list is an initial segment of the
second (helper for substring search, mirroring JS `String.prototype.includes`). -/
def leadsWith : List Char → List Char → Bool
  | [], _ => true
  | _ :: _, [] => false
  | a :: as, b :: bs => a == b && leadsWith as bs

/-- Decides whether the first character list occurs contiguously inside the
second. -/
def subIn (p : List Char) : List Char → Bool
  | [] => p.isEmpty
  | b :: bs => leadsWith p (b :: bs) || subIn p bs

/-- JS `msg.includes(pat)`: `pat` occurs as a contiguous substring of `msg`. -/
def containsSub (msg pat : String) : Bool :=
  subIn pat.data msg.data

/-- JS truthiness of `x?.y || fallback` for an optional string: `undefined`
and the empty string fall through to the fallback. -/
def jsOrElse (o : Option String) (fallback : String) : String :=
  match o with
  | none => fallback
  | some s => if s = "" then fallback else s

/-! ## generateRandomSuffix (single-change-password.js lines 13-20) -/

/-- The candidate characters `'abcdefghijklmnopqrstuvwxyz0123456789'`. -/
def suffixCharList : List Char :=
  "abcdefghijklmnopqrstuvwxyz0123456789".data

/-- One random pick `chars[Math.floor(Math.random() * chars.length)]`,
with the random index made explicit. -/
def suffixChar (i : Fin 36) : Char :=
  suffixCharList.get (Fin.cast (by decide) i)

/-- Model of `generateRandomSuffix`: two random picks concatenated.  The two random
indices drawn from `Math.random()` are explicit arguments. -/
def generateRandomSuffix (i j : Fin 36) : String :=
  ⟨[suffixChar i, suffixChar j]⟩

/-! ## Data model of the rotation orchestrator -/

/-- User snapshot as returned by the changer (re-fetched `GET /api/user/self`
after the change; see changePassword/README.md).  Only the field the
orchestrator inspects (`username`) is named; the snapshot is otherwise
carried verbatim. -/
structure UserInfo where
  username : String
  deriving Repr, DecidableEq

/-- Result of `changer.initialize()`. -/
structure InitResult where
  success : Bool
  message : String
  deriving Repr, DecidableEq

/-- Result of `changer.changePassword(...)`. `userInfo` is optional: JS reads
it with `retryResult.userInfo?.username`. -/
structure ChangeResult where
  success : Bool
  message : String
  userInfo : Option UserInfo
  deriving Repr, DecidableEq

/-- Arguments of one `updatePasswordChange` call (src/api/account.js lines
454-501): optional fields are `undefined` when absent. -/
structure UpdateParams where
  record_id : String
  status : Option Nat
  error_reason : Option String
  new_username : Option String
  account_info : Option UserInfo
  deriving Repr, DecidableEq

/-- The `passwordChangeData` input record.  `error_count` defaults to 0 in
the JS destructuring, so it is total here. -/
structure PasswordChangeData where
  record_id : String
  old_username : String
  old_password : String
  new_username : Option String
  new_password : Option String
  error_count : Nat
  deriving Repr, DecidableEq

/-- Environment for one run: the outcome the changer produces at each of the
three await points (`.error` models a thrown exception, `.ok` a returned
value), and the two random indices `generateRandomSuffix` would draw. -/
structure ChangerEnv where
  initOutcome : Except String InitResult
  changeOutcome : Except String ChangeResult
  retryOutcome : Except String ChangeResult
  sfx1 : Fin 36
  sfx2 : Fin 36

/-- Value returned by `executeSingleChangePassword`. -/
structure ExecResult where
  success : Bool
  message : String
  userInfo : Option UserInfo
  deriving Repr, DecidableEq

/-- Observable outcome of one run: the returned value, the ordered list of
`updatePasswordChange` invocations, the username argument of each
`changer.changePassword` invocation (in order), and whether the `finally`
cleanup ran. -/
structure ExecOutcome where
  result : ExecResult
  updates : List UpdateParams
  attemptUsernames : List (Option String)
  cleanupRan : Bool
  deriving Repr, DecidableEq

/-- Error-status upload `{record_id, status: 3, error_reason}`. -/
def errUpdate (rid reason : String) : UpdateParams :=
  { record_id := rid, status := some 3, error_reason := some reason,
    new_username := none, account_info := none }

/-- The single-quote character, via its code point. -/
def squoteChar : Char := Char.ofNat 39

/-- Wraps a token in single-quote characters. -/
def sQuote (s : String) : String :=
  String.mk (squoteChar :: s.data ++ [squoteChar])

/-- The duplicate-username test of single-change-password.js lines 109-111:
the failure message contains both `Duplicate entry` and `for key 'username'`. -/
def isDuplicateUsernameError (msg : String) : Bool :=
  containsSub msg "Duplicate entry" && containsSub msg ("for key " ++ sQuote "username")

/-- JS string coercion in `new_username + randomSuffix` when `new_username`
is `undefined`. -/
def jsCoerceStr (o : Option String) : String :=
  match o with
  | some s => s
  | none => "undefined"

/-- Shallow embedding of `executeSingleChangePassword` (single-change-password.js
lines 33-204), with the changer's behaviour supplied by `env`.  Each branch
mirrors one exit path of the JS function; the `finally` block makes
`cleanupRan` true on every path. -/
def executeSingleChangePassword (d : PasswordChangeData) (env : ChangerEnv) :
    ExecOutcome :=
  match env.initOutcome with
  | .error e =>
      { result := { success := false, message := "执行异常: " ++ e, userInfo := none },
        updates := [errUpdate d.record_id ("执行异常: " ++ e)],
        attemptUsernames := [], cleanupRan := true }
  | .ok ir =>
    if ir.success = false then
      { result := { success := false,
                    message := "浏览器初始化失败: " ++ ir.message, userInfo := none },
        updates := [errUpdate d.record_id ("浏览器初始化失败: " ++ ir.message)],
        attemptUsernames := [], cleanupRan := true }
    else
      match env.changeOutcome with
      | .error e =>
          { result := { success := false, message := "执行异常: " ++ e, userInfo := none },
            updates := [errUpdate d.record_id ("执行异常: " ++ e)],
            attemptUsernames := [d.new_username], cleanupRan := true }
      | .ok cr =>
        if cr.success then
          { result := { success := true, message := "账密修改成功", userInfo := cr.userInfo },
            updates := [{ record_id := d.record_id, status := some 2, error_reason := none,
                          new_username := none, account_info := cr.userInfo }],
            attemptUsernames := [d.new_username], cleanupRan := true }
        else if isDuplicateUsernameError cr.message && d.error_count == 2 then
          let retryUsername :=
            jsCoerceStr d.new_username ++ generateRandomSuffix env.sfx1 env.sfx2
          match env.retryOutcome with
          | .error e =>
              { result := { success := false, message := "执行异常: " ++ e, userInfo := none },
                updates := [errUpdate d.record_id ("执行异常: " ++ e)],
                attemptUsernames := [d.new_username, some retryUsername],
                cleanupRan := true }
          | .ok rr =>
            if rr.success then
              { result := { success := true, message := "账密修改成功（重试）",
                            userInfo := rr.userInfo },
                updates := [{ record_id := d.record_id, status := some 2, error_reason := none,
                              new_username :=
                                some (jsOrElse (rr.userInfo.map UserInfo.username) retryUsername),
                              account_info := rr.userInfo }],
                attemptUsernames := [d.new_username, some retryUsername],
                cleanupRan := true }
            else
              { result := { success := false,
                            message := "重试修改失败: " ++ rr.message, userInfo := none },
                updates := [errUpdate d.record_id ("重试修改失败: " ++ rr.message)],
                attemptUsernames := [d.new_username, some retryUsername],
                cleanupRan := true }
        else
          { result := { success := false, message := cr.message, userInfo := none },
            updates := [errUpdate d.record_id cr.message],
            attemptUsernames := [d.new_username], cleanupRan := true }

/-! ## updatePasswordChange client wrapper (src/api/account.js lines 454-501)
and the ledger's documented error-count effect -/

/-- Client-side validation of `updatePasswordChange`: rejects an empty
`record_id`, a status outside `{0,1,2,3}`, and a truthy `error_reason`
longer than 500 characters; otherwise the request is forwarded with exactly
the fields that were provided. -/
def updatePasswordChange (p : UpdateParams) : Except String UpdateParams :=
  if p.record_id = "" then .error "申请记录ID不能为空"
  else if (match p.status with
           | some s => !([0, 1, 2, 3] : List Nat).contains s
           | none => false) then
    .error "申请状态必须为0（未开始）、1（进行中）、2（已完成）或3（错误）"
  else if (match p.error_reason with
           | some r => !(r == "") && 500 < r.length
           | none => false) then
    .error "错误原因不能超过500个字符"
  else .ok p

/-- Modelled from the spec: the backend endpoint
`/anyrouter2/updatePasswordChange` is not under src/; per the documented
contract in account.js (lines 414-424), when the status is set to error (3)
and an error reason is provided, the record's `error_count` is automatically
incremented; otherwise it is left unchanged. -/
def ledgerErrorCountStep (p : UpdateParams) (ec : Nat) : Nat :=
  if p.status = some 3 ∧ p.error_reason ≠ none then ec + 1 else ec

/-- Modelled from the spec: the `error_count` stored by the ledger after a
sequence of `updatePasswordChange` invocations, starting from `ec`.  Calls
rejected by client-side validation never reach the backend. -/
def ledgerErrorCountRun (ec : Nat) (calls : List UpdateParams) : Nat :=
  calls.foldl
    (fun e p =>
      match updatePasswordChange p with
      | .ok q => ledgerErrorCountStep q e
      | .error _ => e)
    ec

/-! ## incrementBalance (src/api/account.js lines 306-336) -/

/-- Modelled from the spec: the backend endpoint `/anyrouter2/incrementBalance`
is not under src/; per the documented contract in account.js (lines 280-305),
it atomically adds `amount` to the balance, and a debit whose magnitude
exceeds the current balance fails the whole operation.  Returns
`(old_balance, new_balance)` on success. -/
def ledgerIncrementBalance (balance amount : Int) : Except String (Int × Int) :=
  if balance + amount < 0 then .error "余额不足"
  else .ok (balance, balance + amount)

/-- Modelled from the spec: the balance stored by the ledger after one
`incrementBalance` request — unchanged when the operation is rejected. -/
def ledgerBalanceAfter (balance amount : Int) : Int :=
  if balance + amount < 0 then balance else balance + amount

/-- The `incrementBalance` operation as issued by the client wrapper: the
client validates that `_id` is nonempty and that an integer amount is
present (integrality is by the `Int` type), then the ledger applies the
atomic delta.  The second component is the account balance afterwards. -/
def incrementBalance (idStr : String) (amount : Option Int) (balance : Int) :
    Except String (Int × Int) × Int :=
  if idStr = "" then (.error "账号ID不能为空", balance)
  else
    match amount with
    | none => (.error "变动额度不能为空", balance)
    | some a => (ledgerIncrementBalance balance a, ledgerBalanceAfter balance a)

/-! ## Random delays (src/utils/random-delay.js lines 12-18 and
checkin-username.js lines 22-24)

Math.random() values and the Gaussian-shaped intermediate
`z = sqrt(-2 ln u) * cos(2 pi v)` are IEEE doubles, hence rational numbers;
the clamping theorems hold for arbitrary rational samples, so the
transcendental shaping is abstracted into the sample itself. -/

/-- Model of `getRandomDelay` from src/utils/random-delay.js: the Gaussian-shaped
sample `z` feeds `delay = min + (max - min) * (z + 3) / 6`, and the result
is `Math.max(min, Math.min(max, Math.floor(delay)))`. -/
def getRandomDelay (min max : ℤ) (z : ℚ) : ℤ :=
  Max.max min (Min.min max ⌊(min : ℚ) + ((max : ℚ) - (min : ℚ)) * (z + 3) / 6⌋)

/-! ## Sign-in module (src/checkin/checkin-username.js) -/

/-- User object of the target site, as embedded in the login response body
(`loginResult.data.data`) and returned by the self-info endpoint. -/
structure ApiUser where
  id : Nat
  username : String
  deriving Repr, DecidableEq

/-- One browser cookie. -/
structure Cookie where
  name : String
  value : String
  deriving Repr, DecidableEq

/-- Environment of one `loginAndGetSession` call: outcomes of the browser
setup and of the three in-page fetches, plus the cookie jar after login.
`pageThrow` models an exception thrown before the login call (browser
launch, navigation); the surrounding try/catch maps it to `null`. -/
structure SiteEnv where
  pageThrow : Option String
  loginOk : Bool
  loginAppSuccess : Bool
  loginUser : Option ApiUser
  cookies : List Cookie
  signOk : Bool
  signAppSuccess : Bool
  selfOk : Bool
  selfAppSuccess : Bool
  selfUser : Option ApiUser

/-- Value returned by `loginAndGetSession` on success:
`{ session, apiUser, userInfo }`. -/
structure SessionInfo where
  session : String
  apiUser : String
  userInfo : Option ApiUser
  deriving Repr, DecidableEq

/-- Observable outcome of one `loginAndGetSession` call: the returned value
(`none` models `null`), and the checkin outcome the function logged —
`some true` / `some false` when the sign-in step was reached and its
success or failure reported, `none` when it was never reached. -/
structure AcqOutcome where
  result : Option SessionInfo
  checkinReport : Option Bool
  deriving Repr, DecidableEq

/-- Model of `getRandomDelay` from checkin-username.js lines 22-24:
`Math.floor(Math.random() * (max - min + 1)) + min`, with the
`Math.random()` sample `r` explicit. -/
def signInGetRandomDelay (min max : ℤ) (r : ℚ) : ℤ :=
  ⌊r * ((max : ℚ) - (min : ℚ) + 1)⌋ + min

/-- Shallow embedding of `loginAndGetSession` (checkin-username.js lines
40-311).  The guard order follows the source: login HTTP success, login
application-level success, truthy user id in the body, session cookie in the
jar; then the checkin call (logged, never fatal), then the best-effort
self-info call with fallback to the login-body snapshot. -/
def loginAndGetSession (env : SiteEnv) : AcqOutcome :=
  match env.pageThrow with
  | some _ => { result := none, checkinReport := none }
  | none =>
    if env.loginOk = false then { result := none, checkinReport := none }
    else if env.loginAppSuccess = false then { result := none, checkinReport := none }
    else
      match env.loginUser with
      | none => { result := none, checkinReport := none }
      | some u =>
        if u.id = 0 then { result := none, checkinReport := none }
        else
          match env.cookies.find? (fun c => c.name == "session") with
          | none => { result := none, checkinReport := none }
          | some sc =>
            let checkinOk := env.signOk && env.signAppSuccess
            let userData :=
              if env.selfOk && env.selfAppSuccess then env.selfUser else env.loginUser
            { result := some
                { session := sc.value, apiUser := toString u.id, userInfo := userData },
              checkinReport := some checkinOk }

/-- One entry of the `processAccounts` input list. -/
structure CheckinAccount where
  username : String
  password : String
  deriving Repr, DecidableEq

/-- One entry of the `processAccounts` results list. -/
structure CheckinResult where
  username : String
  success : Bool
  data : Option SessionInfo
  deriving Repr, DecidableEq

/-- Loop body of `processAccounts` (checkin-username.js lines 318-341): the
`i`-th sequential `loginAndGetSession` call sees environment `envs i`. -/
def processAccountsFrom (envs : Nat → SiteEnv) : Nat → List CheckinAccount →
    List CheckinResult
  | _, [] => []
  | i, a :: rest =>
    let r := (loginAndGetSession (envs i)).result
    { username := a.username, success := r.isSome, data := r } ::
      processAccountsFrom envs (i + 1) rest

/-- Model of `processAccounts`: fold every account, in order, into a result entry. -/
def processAccounts (envs : Nat → SiteEnv) (accounts : List CheckinAccount) :
    List CheckinResult :=
  processAccountsFrom envs 0 accounts

/-! ## Theorems -/

/-- C3: for every account with current balance `B ≥ 0` and every debit
`incrementBalance(id, -X)` with `X > B`, the operation fails reporting the
insufficient-balance condition, no partial debit occurs, and the balance
afterwards equals `B`. -/
theorem spec_C3 (idStr : String) (B X : Int) (hid : idStr ≠ "") (hB : 0 ≤ B)
    (hX : B < X) :
    (incrementBalance idStr (some (-X)) B).1 = .error "余额不足" ∧
    (incrementBalance idStr (some (-X)) B).2 = B := by
  have hneg : B + (-X) < 0 := by omega
  constructor <;>
    simp [incrementBalance, ledgerIncrementBalance, ledgerBalanceAfter, hid, hneg]

/-- Witness for C3 at balance 10 and debit 20. -/
theorem spec_C3_witness :
    (incrementBalance "acct1" (some (-20)) 10).1 = .error "余额不足" ∧
    (incrementBalance "acct1" (some (-20)) 10).2 = 10 :=
  spec_C3 "acct1" 10 20 (by decide) (by decide) (by decide)

/-- C9: both delay generators are pure functions of `(min, max)` and the
random samples, and for `min ≤ max` every possible sample yields a delay
`d` with `min ≤ d ≤ max`: the Gaussian-shaped value is clamped into range
in `getRandomDelay`, and the uniform variant of the sign-in module lands in
range for every `Math.random()` sample `r ∈ [0, 1)`. -/
theorem spec_C9 (lo hi : ℤ) (z r : ℚ) (h : lo ≤ hi) (hr0 : 0 ≤ r) (hr1 : r < 1) :
    (lo ≤ getRandomDelay lo hi z ∧ getRandomDelay lo hi z ≤ hi) ∧
    (lo ≤ signInGetRandomDelay lo hi r ∧ signInGetRandomDelay lo hi r ≤ hi) := by
  have hcast : (lo : ℚ) ≤ (hi : ℚ) := by exact_mod_cast h
  refine ⟨⟨le_max_left _ _, max_le h (min_le_left _ _)⟩, ?_, ?_⟩
  · have hc : (0 : ℚ) ≤ (hi : ℚ) - lo + 1 := by linarith
    have hfl : (0 : ℤ) ≤ ⌊r * ((hi : ℚ) - lo + 1)⌋ :=
      Int.floor_nonneg.mpr (mul_nonneg hr0 hc)
    unfold signInGetRandomDelay
    omega
  · have hc : (0 : ℚ) < (hi : ℚ) - lo + 1 := by linarith
    have hlt : r * ((hi : ℚ) - lo + 1) < (hi : ℚ) - lo + 1 := by nlinarith
    have hfl : ⌊r * ((hi : ℚ) - lo + 1)⌋ < hi - lo + 1 := by
      apply Int.floor_lt.mpr
      push_cast
      linarith
    unfold signInGetRandomDelay
    omega

/-- Witness for C9 at `(min, max) = (500, 1500)`, `z = 0`, `r = 1/2`. -/
theorem spec_C9_witness :
    ((500 : ℤ) ≤ getRandomDelay 500 1500 0 ∧ getRandomDelay 500 1500 0 ≤ 1500) ∧
    ((500 : ℤ) ≤ signInGetRandomDelay 500 1500 (1 / 2) ∧
      signInGetRandomDelay 500 1500 (1 / 2) ≤ 1500) :=
  spec_C9 500 1500 0 (1 / 2) (by decide) (by norm_num) (by norm_num)

/-- Auxiliary: shape of every entry produced by the `processAccounts` loop,
with the running call index made explicit. -/
theorem processAccountsFrom_get? (envs : Nat → SiteEnv) :
    ∀ (accounts : List CheckinAccount) (k i : Nat),
      (processAccountsFrom envs k accounts).get? i =
        (accounts.get? i).map (fun a =>
          { username := a.username,
            success := (loginAndGetSession (envs (k + i))).result.isSome,
            data := (loginAndGetSession (envs (k + i))).result })
  | [], _, _ => by simp [processAccountsFrom]
  | a :: rest, k, 0 => by simp [processAccountsFrom]
  | a :: rest, k, i + 1 => by
    have ih := processAccountsFrom_get? envs rest (k + 1) i
    simpa [processAccountsFrom, Nat.add_assoc, Nat.add_comm, Nat.add_left_comm] using ih

/-- Auxiliary: the `processAccounts` loop preserves length. -/
theorem processAccountsFrom_length (envs : Nat → SiteEnv) :
    ∀ (accounts : List CheckinAccount) (k : Nat),
      (processAccountsFrom envs k accounts).length = accounts.length
  | [], _ => rfl
  | _ :: rest, k => by
    simp [processAccountsFrom, processAccountsFrom_length envs rest (k + 1)]

/-- C10: `processAccounts` returns one result per input account, in order:
the `i`-th result carries the `i`-th account's username, its `success` field
is true exactly when `loginAndGetSession` returned non-null for that
account, and `data` holds that return value (null otherwise). -/
theorem spec_C10 (envs : Nat → SiteEnv) (accounts : List CheckinAccount) :
    (processAccounts envs accounts).length = accounts.length ∧
    ∀ i a, accounts.get? i = some a →
      (processAccounts envs accounts).get? i =
        some { username := a.username,
               success := (loginAndGetSession (envs i)).result.isSome,
               data := (loginAndGetSession (envs i)).result } := by
  constructor
  · exact processAccountsFrom_length envs accounts 0
  · intro i a ha
    have ha' : accounts[i]? = some a := by
      simpa [List.get?_eq_getElem?] using ha
    have h := processAccountsFrom_get? envs accounts 0 i
    simpa [processAccounts, ha'] using h

/-- Sample environment in which every step of `loginAndGetSession` succeeds. -/
def sampleEnvOk : SiteEnv :=
  { pageThrow := none, loginOk := true, loginAppSuccess := true,
    loginUser := some { id := 7, username := "alice" },
    cookies := [{ name := "session", value := "sv" }],
    signOk := true, signAppSuccess := true,
    selfOk := true, selfAppSuccess := true,
    selfUser := some { id := 7, username := "alice" } }

/-- Witness for C10 on a one-account list against `sampleEnvOk`. -/
theorem spec_C10_witness :
    (processAccounts (fun _ => sampleEnvOk)
        [{ username := "a", password := "p" }]).get? 0 =
      some { username := "a",
             success := (loginAndGetSession sampleEnvOk).result.isSome,
             data := (loginAndGetSession sampleEnvOk).result } :=
  (spec_C10 (fun _ => sampleEnvOk) [{ username := "a", password := "p" }]).2 0
    { username := "a", password := "p" } rfl

/-- C4: `loginAndGetSession` returns null whenever the login HTTP call
fails, or the login response reports application-level failure, or the
login body carries no user id, or no session cookie is in the jar after
login. -/
theorem spec_C4 (env : SiteEnv)
    (h : env.loginOk = false ∨ env.loginAppSuccess = false ∨
      env.loginUser = none ∨
      env.cookies.find? (fun c => c.name == "session") = none) :
    (loginAndGetSession env).result = none := by
  unfold loginAndGetSession
  rcases h with h | h | h | h <;> (repeat' split) <;> simp_all

/-- Witness for C4: login HTTP failure yields null. -/
theorem spec_C4_witness :
    (loginAndGetSession { sampleEnvOk with loginOk := false }).result = none :=
  spec_C4 { sampleEnvOk with loginOk := false } (Or.inl rfl)

/-- C5: a checkin failure inside `loginAndGetSession` is not an acquisition
failure — with login succeeded, a user id and a session cookie in hand, the
call still returns the session, apiUser and user snapshot even when the
sign-in request fails; the checkin outcome is reported separately (here: the
logged report), and the returned value does not depend on the checkin
outcome at all. -/
theorem spec_C5 (env : SiteEnv) (u : ApiUser) (sc : Cookie)
    (hpt : env.pageThrow = none) (hok : env.loginOk = true)
    (happ : env.loginAppSuccess = true) (hu : env.loginUser = some u)
    (hid : u.id ≠ 0)
    (hsc : env.cookies.find? (fun c => c.name == "session") = some sc)
    (hck : (env.signOk && env.signAppSuccess) = false) :
    (loginAndGetSession env).result =
      some { session := sc.value, apiUser := toString u.id,
             userInfo := if env.selfOk && env.selfAppSuccess then env.selfUser
                         else env.loginUser } ∧
    (loginAndGetSession env).checkinReport = some false ∧
    (∀ s1 s2 : Bool,
      (loginAndGetSession { env with signOk := s1, signAppSuccess := s2 }).result =
        (loginAndGetSession env).result) := by
  refine ⟨?_, ?_, ?_⟩
  · simp [loginAndGetSession, hpt, hok, happ, hu, hid, hsc]
  · simp [loginAndGetSession, hpt, hok, happ, hu, hid, hsc, hck]
  · intro s1 s2
    simp [loginAndGetSession, hpt, hok, happ, hu, hid, hsc]

/-- Witness for C5: checkin HTTP failure, everything else fine. -/
theorem spec_C5_witness :
    (loginAndGetSession { sampleEnvOk with signOk := false }).result =
      some { session := "sv", apiUser := "7",
             userInfo :=
               if ({ sampleEnvOk with signOk := false } : SiteEnv).selfOk &&
                  ({ sampleEnvOk with signOk := false } : SiteEnv).selfAppSuccess then
                 ({ sampleEnvOk with signOk := false } : SiteEnv).selfUser
               else ({ sampleEnvOk with signOk := false } : SiteEnv).loginUser } ∧
    (loginAndGetSession { sampleEnvOk with signOk := false }).checkinReport =
      some false :=
  ⟨(spec_C5 { sampleEnvOk with signOk := false } { id := 7, username := "alice" }
      { name := "session", value := "sv" } rfl rfl rfl rfl (by decide) rfl rfl).1,
   (spec_C5 { sampleEnvOk with signOk := false } { id := 7, username := "alice" }
      { name := "session", value := "sv" } rfl rfl rfl rfl (by decide) rfl rfl).2.1⟩

/-- C6: on successful acquisition, the returned `userInfo` is the self-info
response data when the self-info call succeeded at both the HTTP and the
application level, and otherwise falls back to the user snapshot embedded in
the login response. -/
theorem spec_C6 (env : SiteEnv) (u : ApiUser) (sc : Cookie)
    (hpt : env.pageThrow = none) (hok : env.loginOk = true)
    (happ : env.loginAppSuccess = true) (hu : env.loginUser = some u)
    (hid : u.id ≠ 0)
    (hsc : env.cookies.find? (fun c => c.name == "session") = some sc) :
    ((env.selfOk && env.selfAppSuccess) = false →
      (loginAndGetSession env).result =
        some { session := sc.value, apiUser := toString u.id,
               userInfo := env.loginUser }) ∧
    ((env.selfOk && env.selfAppSuccess) = true →
      (loginAndGetSession env).result =
        some { session := sc.value, apiUser := toString u.id,
               userInfo := env.selfUser }) := by
  constructor <;> intro hself <;>
    simp [loginAndGetSession, hpt, hok, happ, hu, hid, hsc, hself]

/-- Witness for C6: self-info HTTP failure falls back to the login snapshot. -/
theorem spec_C6_witness :
    (loginAndGetSession { sampleEnvOk with selfOk := false }).result =
      some { session := "sv", apiUser := "7",
             userInfo := some { id := 7, username := "alice" } } :=
  (spec_C6 { sampleEnvOk with selfOk := false } { id := 7, username := "alice" }
      { name := "session", value := "sv" } rfl rfl rfl rfl (by decide) rfl).1 rfl

/-! ### Helper lemmas for the rotation orchestrator -/

/-- A string with a nonempty prefix is nonempty. -/
theorem prefixed_ne_empty (p e : String) (hp : p ≠ "") : p ++ e ≠ "" := by
  intro h
  have hlen := congrArg String.length h
  rw [String.length_append] at hlen
  have hp' : 0 < p.length := by
    cases p with
    | mk data =>
      cases data with
      | nil => simp at hp
      | cons a as => simp [String.length]
  have hz : ("" : String).length = 0 := rfl
  rw [hz] at hlen
  omega

/-- Every character `generateRandomSuffix` can draw belongs to the candidate
list. -/
theorem suffixChar_mem (i : Fin 36) : suffixChar i ∈ suffixCharList := by
  exact List.get_mem suffixCharList _ _

/-- Client-side validation accepts every error upload the orchestrator
builds, provided the record id is nonempty and the reason is within the
500-character bound. -/
theorem updatePasswordChange_errUpdate_ok (rid reason : String) (hrid : rid ≠ "")
    (hlen : reason.length ≤ 500) :
    updatePasswordChange (errUpdate rid reason) = .ok (errUpdate rid reason) := by
  have hnot : ¬ (500 < reason.length) := by omega
  unfold updatePasswordChange errUpdate
  simp [hrid, hnot]

/-- The ledger's documented effect of one accepted error upload: the error
count increments by one. -/
theorem ledgerErrorCountRun_errUpdate (ec : Nat) (rid reason : String)
    (hrid : rid ≠ "") (hlen : reason.length ≤ 500) :
    ledgerErrorCountRun ec [errUpdate rid reason] = ec + 1 := by
  unfold ledgerErrorCountRun
  simp only [List.foldl_cons, List.foldl_nil]
  rw [updatePasswordChange_errUpdate_ok rid reason hrid hlen]
  simp [ledgerErrorCountStep, errUpdate]

/-- C1: on a rotation failure whose message matches the duplicate-username
signature and with carried-in `error_count = 2`, exactly one further
rotation attempt is made, its candidate username is the desired new
username with a two-character suffix appended, every suffix character is a
lowercase letter or digit; if the retry also fails the run terminates in
error status with no further attempts, and no execution ever makes more
than 2 rotation attempts. -/
theorem spec_C1 (d : PasswordChangeData) (env : ChangerEnv) (ir : InitResult)
    (cr : ChangeResult) (u : String)
    (hinit : env.initOutcome = .ok ir) (hirs : ir.success = true)
    (hch : env.changeOutcome = .ok cr) (hcs : cr.success = false)
    (hdup : isDuplicateUsernameError cr.message = true)
    (hec : d.error_count = 2) (hnu : d.new_username = some u) :
    (executeSingleChangePassword d env).attemptUsernames =
      [some u, some (u ++ generateRandomSuffix env.sfx1 env.sfx2)] ∧
    (generateRandomSuffix env.sfx1 env.sfx2).length = 2 ∧
    (∀ c ∈ (generateRandomSuffix env.sfx1 env.sfx2).data, c ∈ suffixCharList) ∧
    (∀ c ∈ suffixCharList, (c.isLower || c.isDigit) = true) ∧
    (∀ rr, env.retryOutcome = .ok rr → rr.success = false →
      (executeSingleChangePassword d env).result.success = false ∧
      (executeSingleChangePassword d env).updates =
        [errUpdate d.record_id ("重试修改失败: " ++ rr.message)]) ∧
    (∀ (d' : PasswordChangeData) (env' : ChangerEnv),
      (executeSingleChangePassword d' env').attemptUsernames.length ≤ 2) := by
  refine ⟨?_, rfl, ?_, by decide, ?_, ?_⟩
  · rcases hre : env.retryOutcome with e | rr
    · simp [executeSingleChangePassword, hinit, hirs, hch, hcs, hdup, hec, hre,
        hnu, jsCoerceStr]
    · cases hrs : rr.success <;>
        simp [executeSingleChangePassword, hinit, hirs, hch, hcs, hdup, hec, hre,
          hrs, hnu, jsCoerceStr]
  · intro c hc
    have h2 : (generateRandomSuffix env.sfx1 env.sfx2).data =
        [suffixChar env.sfx1, suffixChar env.sfx2] := rfl
    rw [h2] at hc
    simp at hc
    rcases hc with rfl | rfl <;> exact suffixChar_mem _
  · intro rr hre hrs
    constructor <;>
      simp [executeSingleChangePassword, hinit, hirs, hch, hcs, hdup, hec, hre, hrs]
  · intro d' env'
    unfold executeSingleChangePassword
    repeat' split
    all_goals simp

/-- Concrete duplicate-username failure message. -/
def dupMsg : String :=
  "Duplicate entry " ++ sQuote "bob" ++ " for key " ++ sQuote "username"

/-- Concrete rotation request with `error_count = 2`. -/
def c1Data : PasswordChangeData :=
  { record_id := "r1", old_username := "olda", old_password := "opw",
    new_username := some "bob", new_password := some "npw", error_count := 2 }

/-- Concrete environment: rotation hits the duplicate-username error, the
retry fails too. -/
def c1Env : ChangerEnv :=
  { initOutcome := .ok { success := true, message := "" },
    changeOutcome := .ok { success := false, message := dupMsg, userInfo := none },
    retryOutcome := .ok { success := false, message := "dup again", userInfo := none },
    sfx1 := 0, sfx2 := 1 }

/-- Witness for C1 at the concrete duplicate-conflict run. -/
theorem spec_C1_witness :
    (executeSingleChangePassword c1Data c1Env).attemptUsernames =
      [some "bob", some ("bob" ++ generateRandomSuffix 0 1)] :=
  (spec_C1 c1Data c1Env { success := true, message := "" }
    { success := false, message := dupMsg, userInfo := none } "bob"
    rfl rfl rfl rfl (by decide) rfl rfl).1

/-- C2 fails on the code: after a browser-initialization failure the
orchestrator still uploads status 3 together with an error reason, and under
the ledger's documented contract that increments `error_count`, so the
count does not stay at its input value.  Concrete run: input
`error_count = 0`, browser init fails. -/
def c2Data : PasswordChangeData :=
  { record_id := "r1", old_username := "olda", old_password := "opw",
    new_username := some "bob", new_password := some "npw", error_count := 0 }

/-- Concrete environment whose browser initialization fails locally. -/
def c2Env : ChangerEnv :=
  { initOutcome := .ok { success := false, message := "launch failed" },
    changeOutcome := .ok { success := false, message := "", userInfo := none },
    retryOutcome := .ok { success := false, message := "", userInfo := none },
    sfx1 := 0, sfx2 := 0 }

/-- Counterexample to C2: a run ending in error status from a local
browser-init fault leaves the ledger's `error_count` at 1, not at its input
value 0. -/
theorem spec_C2_counterexample :
    (executeSingleChangePassword c2Data c2Env).result.success = false ∧
    (executeSingleChangePassword c2Data c2Env).updates =
      [errUpdate c2Data.record_id ("浏览器初始化失败: " ++ "launch failed")] ∧
    ¬ (ledgerErrorCountRun c2Data.error_count
        (executeSingleChangePassword c2Data c2Env).updates = c2Data.error_count) := by
  refine ⟨rfl, rfl, ?_⟩
  have h : ledgerErrorCountRun c2Data.error_count
      (executeSingleChangePassword c2Data c2Env).updates = 1 := by decide
  rw [h]
  simp [c2Data]

/-- C2 (amended): a password-change request that ends in the error status
because of a local fault — browser-init failure, or an uncaught exception
at the initialization, rotation or retry stage — is reported with status 3
and an error reason, so under the documented ledger contract its
`error_count` afterwards equals the input value plus one; the code draws no
distinction between local faults and remote-API failures. -/
theorem spec_C2_amended (d : PasswordChangeData) (env : ChangerEnv)
    (hrid : d.record_id ≠ "")
    (h : (∃ ir, env.initOutcome = .ok ir ∧ ir.success = false ∧
            ("浏览器初始化失败: " ++ ir.message).length ≤ 500) ∨
         (∃ e, env.initOutcome = .error e ∧ ("执行异常: " ++ e).length ≤ 500) ∨
         (∃ ir e, env.initOutcome = .ok ir ∧ ir.success = true ∧
            env.changeOutcome = .error e ∧ ("执行异常: " ++ e).length ≤ 500) ∨
         (∃ ir cr e, env.initOutcome = .ok ir ∧ ir.success = true ∧
            env.changeOutcome = .ok cr ∧ cr.success = false ∧
            (isDuplicateUsernameError cr.message && d.error_count == 2) = true ∧
            env.retryOutcome = .error e ∧ ("执行异常: " ++ e).length ≤ 500)) :
    ledgerErrorCountRun d.error_count (executeSingleChangePassword d env).updates =
      d.error_count + 1 := by
  rcases h with ⟨ir, hinit, hfail, hlen⟩ | ⟨e, hinit, hlen⟩ |
    ⟨ir, e, hinit, hirs, hch, hlen⟩ |
    ⟨ir, cr, e, hinit, hirs, hch, hcs, hdup, hre, hlen⟩
  · have hupd : (executeSingleChangePassword d env).updates =
        [errUpdate d.record_id ("浏览器初始化失败: " ++ ir.message)] := by
      simp [executeSingleChangePassword, hinit, hfail]
    rw [hupd]
    exact ledgerErrorCountRun_errUpdate _ _ _ hrid hlen
  · have hupd : (executeSingleChangePassword d env).updates =
        [errUpdate d.record_id ("执行异常: " ++ e)] := by
      simp [executeSingleChangePassword, hinit]
    rw [hupd]
    exact ledgerErrorCountRun_errUpdate _ _ _ hrid hlen
  · have hupd : (executeSingleChangePassword d env).updates =
        [errUpdate d.record_id ("执行异常: " ++ e)] := by
      simp [executeSingleChangePassword, hinit, hirs, hch]
    rw [hupd]
    exact ledgerErrorCountRun_errUpdate _ _ _ hrid hlen
  · have hupd : (executeSingleChangePassword d env).updates =
        [errUpdate d.record_id ("执行异常: " ++ e)] := by
      simp [executeSingleChangePassword, hinit, hirs, hch, hcs, hdup, hre]
    rw [hupd]
    exact ledgerErrorCountRun_errUpdate _ _ _ hrid hlen

/-- Concrete environment whose rotation attempt throws an uncaught
exception. -/
def c2ExcEnv : ChangerEnv :=
  { initOutcome := .ok { success := true, message := "" },
    changeOutcome := .error "page crashed",
    retryOutcome := .ok { success := false, message := "", userInfo := none },
    sfx1 := 0, sfx2 := 0 }

/-- Witness for the amended C2 at a concrete rotation-stage exception run. -/
theorem spec_C2_amended_witness :
    ledgerErrorCountRun c2Data.error_count
        (executeSingleChangePassword c2Data c2ExcEnv).updates =
      c2Data.error_count + 1 :=
  spec_C2_amended c2Data c2ExcEnv (by decide)
    (Or.inr (Or.inr (Or.inl
      ⟨{ success := true, message := "" }, "page crashed", rfl, rfl, rfl, by decide⟩)))

/-- C7: when the conflict-retry attempt succeeds, the `new_username`
uploaded in the completion report is the verified post-change username from
the re-fetched user snapshot carried by the retry result, not the locally
generated candidate.  The snapshot hypotheses reflect the changer's
documented success contract (changePassword/README.md: a successful result
carries the re-fetched `userInfo`). -/
theorem spec_C7 (d : PasswordChangeData) (env : ChangerEnv) (ir : InitResult)
    (cr rr : ChangeResult) (u : UserInfo)
    (hinit : env.initOutcome = .ok ir) (hirs : ir.success = true)
    (hch : env.changeOutcome = .ok cr) (hcs : cr.success = false)
    (hdup : isDuplicateUsernameError cr.message = true)
    (hec : d.error_count = 2)
    (hre : env.retryOutcome = .ok rr) (hrs : rr.success = true)
    (hui : rr.userInfo = some u) (hune : u.username ≠ "") :
    (executeSingleChangePassword d env).updates =
      [{ record_id := d.record_id, status := some 2, error_reason := none,
         new_username := some u.username, account_info := some u }] ∧
    (executeSingleChangePassword d env).result.success = true ∧
    (executeSingleChangePassword d env).result.userInfo = some u := by
  refine ⟨?_, ?_, ?_⟩ <;>
    simp [executeSingleChangePassword, hinit, hirs, hch, hcs, hdup, hec, hre, hrs,
      hui, jsOrElse, hune]

/-- Concrete environment: duplicate conflict, then a successful retry whose
re-fetched snapshot reports username `bob4k`. -/
def c7Env : ChangerEnv :=
  { initOutcome := .ok { success := true, message := "" },
    changeOutcome := .ok { success := false, message := dupMsg, userInfo := none },
    retryOutcome := .ok { success := true, message := "",
                          userInfo := some { username := "bob4k" } },
    sfx1 := 0, sfx2 := 1 }

/-- Witness for C7 at the concrete successful-retry run. -/
theorem spec_C7_witness :
    (executeSingleChangePassword c1Data c7Env).updates =
      [{ record_id := c1Data.record_id, status := some 2, error_reason := none,
         new_username := some "bob4k",
         account_info := some { username := "bob4k" } }] :=
  (spec_C7 c1Data c7Env { success := true, message := "" }
    { success := false, message := dupMsg, userInfo := none }
    { success := true, message := "", userInfo := some { username := "bob4k" } }
    { username := "bob4k" }
    rfl rfl rfl rfl (by decide) rfl rfl rfl rfl (by decide)).1

/-- C8: every run returning an unsuccessful result has uploaded status 3
with a nonempty error reason before returning, and the cleanup step of the
`finally` block runs on every exit path.  The hypothesis reflects the
changer's documented failure contract (a failed change carries a nonempty
message). -/
theorem spec_C8 (d : PasswordChangeData) (env : ChangerEnv)
    (hmsg : ∀ cr, env.changeOutcome = .ok cr → cr.success = false →
      cr.message ≠ "") :
    (executeSingleChangePassword d env).cleanupRan = true ∧
    ((executeSingleChangePassword d env).result.success = false →
      ∃ p ∈ (executeSingleChangePassword d env).updates,
        p.status = some 3 ∧ ∃ r, p.error_reason = some r ∧ r ≠ "") := by
  constructor
  · unfold executeSingleChangePassword
    repeat' split
    all_goals rfl
  · intro hfail
    rcases hinit : env.initOutcome with e | ir
    · exact ⟨errUpdate d.record_id ("执行异常: " ++ e),
        by simp [executeSingleChangePassword, hinit], rfl, _, rfl,
        prefixed_ne_empty _ _ (by decide)⟩
    · cases hirs : ir.success
      · exact ⟨errUpdate d.record_id ("浏览器初始化失败: " ++ ir.message),
          by simp [executeSingleChangePassword, hinit, hirs], rfl, _, rfl,
          prefixed_ne_empty _ _ (by decide)⟩
      · rcases hch : env.changeOutcome with e | cr
        · exact ⟨errUpdate d.record_id ("执行异常: " ++ e),
            by simp [executeSingleChangePassword, hinit, hirs, hch], rfl, _, rfl,
            prefixed_ne_empty _ _ (by decide)⟩
        · cases hcs : cr.success
          · by_cases hdup :
              (isDuplicateUsernameError cr.message && d.error_count == 2) = true
            · rcases hre : env.retryOutcome with e | rr
              · exact ⟨errUpdate d.record_id ("执行异常: " ++ e),
                  by simp [executeSingleChangePassword, hinit, hirs, hch, hcs,
                    hdup, hre], rfl, _, rfl,
                  prefixed_ne_empty _ _ (by decide)⟩
              · cases hrs : rr.success
                · exact ⟨errUpdate d.record_id ("重试修改失败: " ++ rr.message),
                    by simp [executeSingleChangePassword, hinit, hirs, hch, hcs,
                      hdup, hre, hrs], rfl, _, rfl,
                    prefixed_ne_empty _ _ (by decide)⟩
                · exfalso
                  have hsucc : (executeSingleChangePassword d env).result.success = true := by
                    simp [executeSingleChangePassword, hinit, hirs, hch, hcs,
                      hdup, hre, hrs]
                  rw [hsucc] at hfail
                  cases hfail
            · exact ⟨errUpdate d.record_id cr.message,
                by simp [executeSingleChangePassword, hinit, hirs, hch, hcs, hdup],
                rfl, _, rfl, hmsg cr hch hcs⟩
          · exfalso
            have hsucc : (executeSingleChangePassword d env).result.success = true := by
              simp [executeSingleChangePassword, hinit, hirs, hch, hcs]
            rw [hsucc] at hfail
            cases hfail

/-- Witness for C8 at the concrete duplicate-conflict run whose retry fails. -/
theorem spec_C8_witness :
    (executeSingleChangePassword c1Data c1Env).cleanupRan = true ∧
    ((executeSingleChangePassword c1Data c1Env).result.success = false →
      ∃ p ∈ (executeSingleChangePassword c1Data c1Env).updates,
        p.status = some 3 ∧ ∃ r, p.error_reason = some r ∧ r ≠ "") :=
  spec_C8 c1Data c1Env (fun cr hcr _ => by
    cases hcr
    decide)

end AnyRouter
